import Mathlib

set_option maxRecDepth 8000

/-!
Shallow embedding of `src/yarnrunner_python/runner.py` (class `YarnRunner`),
the Yarn Spinner bytecode virtual machine.

Modelling conventions:
* Python's dynamically typed stack values become the tagged union `Value`;
  numbers are modelled as `Rat` (exact 64-bit-float behaviour is not needed by
  any claim; the only numeric observations made by the interpreter are equality
  with `0`/`False` and `int()` truncation, which `Rat` models exactly on the
  values that occur).
* Python dicts (`visits`, `variables`, the command-handler registry, the string
  lookup table, protobuf maps) become insertion-ordered association lists with
  `alookup`/`aupdate` (update-in-place keeps the position, insertion appends —
  exactly Python 3.7+ dict semantics).
* Python exceptions become the `VMResult.err` constructor.  Because exceptions
  leave the (mutated-so-far) object observable, `err` carries the state at the
  moment of the raise.
* The recursive `__process_instruction` loop is given explicit fuel; running
  out of fuel is an `err` distinct from every real error.
* `RunnerState.transitionLog` is a ghost field: it records each node transition
  performed by `__go_to_node` and is never read by any instruction.  It exists
  only so that visit-counting invariants can be stated; erasing it changes no
  other field of any run.
* The standard library (`vm_std_lib`, not part of this file's source) and the
  host command handlers are opaque registries carried in `Env`/`RunnerState`.
-/

/-- Runtime value, `{String, Number, Boolean, Null}` (§ Value). -/
inductive Value where
  | str (s : String)
  | num (q : Rat)
  | bool (b : Bool)
  | null
deriving DecidableEq, Repr

/-- The 17 opcodes dispatched by `__process_instruction`'s `opcode_functions`. -/
inductive OpCode where
  | JUMP_TO
  | JUMP
  | RUN_LINE
  | RUN_COMMAND
  | ADD_OPTION
  | SHOW_OPTIONS
  | PUSH_STRING
  | PUSH_FLOAT
  | PUSH_BOOL
  | PUSH_NULL
  | JUMP_IF_FALSE
  | POP
  | CALL_FUNC
  | PUSH_VARIABLE
  | STORE_VARIABLE
  | STOP
  | RUN_NODE
deriving DecidableEq, Repr

/-- A protobuf instruction operand (oneof string/float/bool). -/
inductive Operand where
  | str (s : String)
  | num (q : Rat)
  | bool (b : Bool)
deriving DecidableEq, Repr

/-- Protobuf accessor: reading an unset `string_value` yields `""`. -/
def Operand.stringValue : Operand → String
  | .str s => s
  | _ => ""

/-- Protobuf accessor: reading an unset `float_value` yields `0`. -/
def Operand.floatValue : Operand → Rat
  | .num q => q
  | _ => 0

/-- Protobuf accessor: reading an unset `bool_value` yields `false`. -/
def Operand.boolValue : Operand → Bool
  | .bool b => b
  | _ => false

structure Instruction where
  opcode : OpCode
  operands : List Operand
deriving DecidableEq, Repr

/-- A node: ordered instruction list plus a label → instruction-index map. -/
structure Node where
  instructions : List Instruction
  labels : List (String × Nat)
deriving DecidableEq, Repr

/-- The decoded compiled program: node name → node. -/
structure Program where
  nodes : List (String × Node)
deriving DecidableEq, Repr

/-- One row of the string table: `{text, lineNumber}`. -/
structure StringEntry where
  text : String
  lineNumber : Int
deriving DecidableEq, Repr

/-- One entry of `_option_buffer`: `{'index': …, 'text': …, 'choice': …}`. -/
structure OptionEntry where
  index : Nat
  text : String
  choice : String
deriving DecidableEq, Repr

/-- Immutable collaborators of a session: the program, the string lookup
table, the standard-library registry (name → (arity, function)), and the
`experimental_newlines` construction flag. -/
structure Env where
  program : Program
  stringTable : List (String × StringEntry)
  stdLib : List (String × Nat × (List Value → Value))
  experimentalNewlines : Bool

/-- All mutable fields of a `YarnRunner` instance.  `transitionLog` is the
ghost transition log described in the file header; every other field is a
direct translation of an attribute assigned in `YarnRunner.__init__`. -/
structure RunnerState where
  visits : List (String × Nat)
  /-- models the Python attribute `self.variables` (`variables` is reserved in Lean) -/
  vars : List (String × Value)
  currentNode : Option String
  commandHandlers : List (String × (List String → Option String))
  lineBuffer : List String
  optionBuffer : List OptionEntry
  dataStack : List Value
  instructionStack : List Instruction
  programCounter : Nat
  previousInstruction : Instruction
  paused : Bool
  finished : Bool
  transitionLog : List String

/-- Outcome of a (possibly raising) VM operation.  `err` carries the state at
the moment the exception is raised: side effects already applied stay
observable, as in Python. -/
inductive VMResult where
  | ok (st : RunnerState)
  | err (msg : String) (st : RunnerState)

/-- The session state held by the Python object after the call, whether or not
an exception escaped. -/
def stateOf : VMResult → RunnerState
  | .ok st => st
  | .err _ st => st

def isOk : VMResult → Bool
  | .ok _ => true
  | .err _ _ => false

/-- Insertion-ordered dict lookup. -/
def alookup {β : Type _} : List (String × β) → String → Option β
  | [], _ => none
  | (k, v) :: rest, key => if k = key then some v else alookup rest key

/-- Insertion-ordered dict store: update in place, or append a new key. -/
def aupdate {β : Type _} : List (String × β) → String → β → List (String × β)
  | [], key, v => [(key, v)]
  | (k, w) :: rest, key, v =>
    if k = key then (k, v) :: rest else (k, w) :: aupdate rest key v

/-- Python `v == False` on a stack value: true for the boolean `False` and for
the number `0` (Python compares booleans and numbers by value), false for every
string, every other number, `True`, and `None`. -/
def pyEqFalse : Value → Bool
  | .bool b => !b
  | .num q => q == 0
  | _ => false

/-- Python `int()` truncation (toward zero) of an exact rational. -/
def ratTruncate (q : Rat) : Int :=
  if 0 ≤ q then q.floor else q.ceil

/-- Python `int(value)`: truncate a number, 0/1 for booleans, parse a decimal
string, and fail (`TypeError`) on `None`. -/
def pyToInt : Value → Option Int
  | .num q => some (ratTruncate q)
  | .bool b => some (if b then 1 else 0)
  | .str s => s.toInt?
  | .null => none

/-- `__lookup_string`: `string_lookup_table[key]["text"]`. -/
def lookupString (env : Env) (key : String) : Option String :=
  (alookup env.stringTable key).map (fun e => e.text)

/-- `__lookup_line_no`: `int(string_lookup_table[key]["lineNumber"])`. -/
def lookupLineNo (env : Env) (key : String) : Option Int :=
  (alookup env.stringTable key).map (fun e => e.lineNumber)

/-- `__find_label`: the current node's `labels[label_key]`.  A missing current
node is a `TypeError` (protobuf maps reject `None` keys); an unknown node name
yields the protobuf default node, whose label map is empty, so the label is
reported missing. -/
def findLabel (env : Env) (st : RunnerState) (labelKey : String) : Except String Nat :=
  match st.currentNode with
  | none => .error "TypeError: the current node is not set"
  | some nodeName =>
    let labels := ((alookup env.program.nodes nodeName).map (fun n => n.labels)).getD []
    match alookup labels labelKey with
    | none => .error "The current node does not have a label with that name"
    | some idx => .ok idx

/-- `__find_expressions`: `true` iff it raises, i.e. iff
`int(operand.float_value) != 0` (inline expressions are unimplemented). -/
def findExpressions (op : Operand) : Bool :=
  ratTruncate op.floatValue != 0

/-- `__jump_to`: set the program counter to the label index named by
`operands[0]`. -/
def jumpTo (env : Env) (instr : Instruction) (st : RunnerState) : VMResult :=
  match instr.operands.get? 0 with
  | none => .err "IndexError: instruction has no operands" st
  | some op =>
    match findLabel env st op.stringValue with
    | .error m => .err m st
    | .ok idx => .ok { st with programCounter := idx }

/-- `__jump`: peek the stack top, require a string, jump to that label. -/
def jump (env : Env) (_instr : Instruction) (st : RunnerState) : VMResult :=
  match st.dataStack with
  | Value.str s :: _ =>
    match findLabel env st s with
    | .error m => .err m st
    | .ok idx => .ok { st with programCounter := idx }
  | _ => .err "The JUMP opcode requires a string to be on the top of the stack." st

/-- The blank lines `__run_line` inserts when `experimental_newlines` is on and
the previous executed instruction was also a `RUN_LINE`. -/
def newlinePadding (env : Env) (st : RunnerState) (stringKey : String) :
    Except String (List String) :=
  if env.experimentalNewlines && st.previousInstruction.opcode == OpCode.RUN_LINE then
    match st.previousInstruction.operands.get? 0 with
    | none => .error "IndexError: instruction has no operands"
    | some prevOp =>
      match lookupLineNo env prevOp.stringValue with
      | none => .error "is not a key in the string lookup table (line number)"
      | some prevNo =>
        match lookupLineNo env stringKey with
        | none => .error "is not a key in the string lookup table (line number)"
        | some currNo =>
          let diff := currNo - prevNo
          if 1 < diff then .ok (List.replicate (diff - 1).toNat "") else .ok []
  else .ok []

/-- `__run_line`: fail fast on a nonzero inline-expression count, append the
blank-line padding, then append the resolved text. -/
def runLine (env : Env) (instr : Instruction) (st : RunnerState) : VMResult :=
  match instr.operands.get? 0 with
  | none => .err "IndexError: instruction has no operands" st
  | some op0 =>
    let stringKey := op0.stringValue
    let exprRaise :=
      match instr.operands.get? 1 with
      | some op1 => findExpressions op1
      | none => false
    if exprRaise then
      .err "Yarn stories with interpolated inline expressions are not yet supported." st
    else
      match newlinePadding env st stringKey with
      | .error m => .err m st
      | .ok padding =>
        let st1 := { st with lineBuffer := st.lineBuffer ++ padding }
        match lookupString env stringKey with
        | none => .err "is not a key in the string lookup table" st1
        | some text => .ok { st1 with lineBuffer := st1.lineBuffer ++ [text] }

/-- Python whitespace (`str.strip` default set). -/
def pyIsSpaceChar (c : Char) : Bool :=
  c = ' ' || c = '\t' || c = '\n' || c = '\r' || c = '\x0b' || c = '\x0c'

/-- Python `str.strip()`. -/
def pyStrip (s : String) : String :=
  String.mk (((s.data.dropWhile pyIsSpaceChar).reverse.dropWhile pyIsSpaceChar).reverse)

def isQuoteChar (c : Char) : Bool :=
  c = '\'' || c = '"'

/-- The lookahead of the `__run_command` split regex
`(?=(?:[^'"]|'[^']*'|"[^"]*")*$)`: the remainder must decompose into unquoted
non-quote characters and fully closed quoted runs.  Since a quoted run cannot
contain its own delimiter, the closing delimiter is forced and the scan is
deterministic: `mode` is the currently open quote, if any. -/
def quoteScan : List Char → Option Char → Bool
  | [], none => true
  | [], some _ => false
  | c :: rest, none =>
    if isQuoteChar c then quoteScan rest (some c) else quoteScan rest none
  | c :: rest, some q =>
    if c = q then quoteScan rest none else quoteScan rest (some q)

/-- `re.split(''' (?=(?:[^'"]|'[^']*'|"[^"]*")*$)''', text)`: split at every
single space character whose remainder passes `quoteScan` (i.e. the space is
outside any quoted run).  Consecutive such spaces produce empty tokens, and no
other whitespace character splits. -/
def splitOutsideQuotes : List Char → List Char → List String
  | [], cur => [String.mk cur.reverse]
  | c :: rest, cur =>
    if c = ' ' && quoteScan rest none then
      String.mk cur.reverse :: splitOutsideQuotes rest []
    else
      splitOutsideQuotes rest (c :: cur)

/-- `sanitize_quotes`: `re.match(r'^[\'"](.*)[\'"]$', arg)` — if the token
starts and ends with a quote character (single or double, independently) and
has no newline strictly between them, return the middle; `$` may also match
just before one trailing newline, which is then dropped with the quotes. -/
def sanitizeQuotes (arg : String) : String :=
  let cs := arg.data
  let core := if cs.getLastD 'x' = '\n' then cs.dropLast else cs
  if 2 ≤ core.length && isQuoteChar (core.headD ' ') && isQuoteChar (core.getLastD ' ')
      && ((core.drop 1).dropLast.all (fun c => c ≠ '\n')) then
    String.mk ((core.drop 1).dropLast)
  else arg

/-- The command-text parse performed by `__run_command`: strip, split on
unquoted single spaces, unquote each argument (the command token itself is not
unquoted).  The split of a nonempty result list always has a head, so the
`("", [])` fallback is unreachable. -/
def parseCommand (text : String) : String × List String :=
  match splitOutsideQuotes (pyStrip text).data [] with
  | [] => ("", [])
  | cmd :: args => (cmd, args.map sanitizeQuotes)

/-- `__run_command`: parse the command text; an unregistered command name only
warns (no state change); a registered handler runs after the fail-fast
inline-expression check, and a string return value is appended to the line
buffer. -/
def runCommand (_env : Env) (instr : Instruction) (st : RunnerState) : VMResult :=
  match instr.operands.get? 0 with
  | none => .err "IndexError: instruction has no operands" st
  | some op =>
    let parsed := parseCommand op.stringValue
    match alookup st.commandHandlers parsed.1 with
    | none => .ok st
    | some handler =>
      let exprRaise :=
        match instr.operands.get? 1 with
        | some op1 => findExpressions op1
        | none => false
      if exprRaise then
        .err "Yarn stories with interpolated inline expressions are not yet supported." st
      else
        match handler parsed.2 with
        | some retStr => .ok { st with lineBuffer := st.lineBuffer ++ [retStr] }
        | none => .ok st

/-- `__add_option`: resolve the title text and append
`{index = buffer length, text, choice}` to the option buffer. -/
def addOption (env : Env) (instr : Instruction) (st : RunnerState) : VMResult :=
  match instr.operands with
  | op0 :: op1 :: rest =>
    let exprRaise :=
      match rest.head? with
      | some op2 => findExpressions op2
      | none => false
    if exprRaise then
      .err "Yarn stories with interpolated inline expressions are not yet supported." st
    else
      match lookupString env op0.stringValue with
      | none => .err "is not a key in the string lookup table" st
      | some text =>
        .ok { st with optionBuffer := st.optionBuffer ++
          [{ index := st.optionBuffer.length, text := text, choice := op1.stringValue }] }
  | _ => .err "IndexError: ADD_OPTION needs two operands" st

/-- `__show_options`: the sole explicit suspension point. -/
def showOptions (_instr : Instruction) (st : RunnerState) : VMResult :=
  .ok { st with paused := true }

def pushString (instr : Instruction) (st : RunnerState) : VMResult :=
  match instr.operands.get? 0 with
  | none => .err "IndexError: instruction has no operands" st
  | some op => .ok { st with dataStack := Value.str op.stringValue :: st.dataStack }

def pushFloat (instr : Instruction) (st : RunnerState) : VMResult :=
  match instr.operands.get? 0 with
  | none => .err "IndexError: instruction has no operands" st
  | some op => .ok { st with dataStack := Value.num op.floatValue :: st.dataStack }

def pushBool (instr : Instruction) (st : RunnerState) : VMResult :=
  match instr.operands.get? 0 with
  | none => .err "IndexError: instruction has no operands" st
  | some op => .ok { st with dataStack := Value.bool op.boolValue :: st.dataStack }

def pushNull (_instr : Instruction) (st : RunnerState) : VMResult :=
  .ok { st with dataStack := Value.null :: st.dataStack }

/-- `__jump_if_false`: peek the stack top; `if stack[0] == False` jump. -/
def jumpIfFalse (env : Env) (instr : Instruction) (st : RunnerState) : VMResult :=
  match st.dataStack with
  | [] => .err "IndexError: the data stack is empty" st
  | v :: _ => if pyEqFalse v then jumpTo env instr st else .ok st

/-- `__pop`: discard the stack top. -/
def popOp (_instr : Instruction) (st : RunnerState) : VMResult :=
  match st.dataStack with
  | [] => .err "IndexError: pop from empty list" st
  | _ :: rest => .ok { st with dataStack := rest }

/-- `__call_func`: pop the argument count, check the registered arity, pop that
many arguments (restoring left-to-right order: the loop builds
`(take N).reverse`, emptying the whole stack before the `IndexError` when it
runs short), then push the single result. -/
def callFunc (env : Env) (instr : Instruction) (st : RunnerState) : VMResult :=
  match instr.operands.get? 0 with
  | none => .err "IndexError: instruction has no operands" st
  | some op =>
    let functionName := op.stringValue
    match alookup env.stdLib functionName with
    | none => .err "The internal function is not implemented in this Yarn runtime." st
    | some (expectedParams, fn) =>
      match st.dataStack with
      | [] => .err "IndexError: pop from empty list" st
      | v :: rest =>
        let st1 := { st with dataStack := rest }
        match pyToInt v with
        | none => .err "TypeError: int() argument" st1
        | some actualParams =>
          if (expectedParams : Int) ≠ actualParams then
            .err "The internal function expects a different number of parameters" st1
          else if expectedParams ≤ rest.length then
            let params := (rest.take expectedParams).reverse
            .ok { st1 with dataStack := fn params :: rest.drop expectedParams }
          else
            .err "IndexError: pop from empty list" { st1 with dataStack := [] }

def isWordChar (c : Char) : Bool :=
  c.isAlpha || c.isDigit || c = '_'

def visitsPat : List Char := "$visits_".data

/-- `re.search(r"\$visits_([a-zA-Z\_0-9]+)", name)`: the group of the leftmost
match — at the first position where the literal `$visits_` is followed by at
least one word character, the maximal word-character run after it. -/
def searchVisits : List Char → Option String
  | [] => none
  | c :: rest =>
    if visitsPat.isPrefixOf (c :: rest) then
      let grp := ((c :: rest).drop visitsPat.length).takeWhile isWordChar
      if grp.isEmpty then searchVisits rest else some (String.mk grp)
    else searchVisits rest

/-- Python `node_key.replace(".", "_")` (the pattern is a single character). -/
def underscored (s : String) : String :=
  String.mk (s.data.map (fun c => if c = '.' then '_' else c))

/-- The dict comprehension
`{node_key.replace(".", "_"): v for node_key, v in visits.items()}` —
built by insertion, so a later duplicate underscored key overwrites an
earlier one, as in a Python dict. -/
def visitsLookupTable (visits : List (String × Nat)) : List (String × Nat) :=
  visits.foldl (fun acc p => aupdate acc (underscored p.1) p.2) []

/-- `__push_variable`: a name containing `$visits_<word chars>` pushes the
visit count of the matched node (dots compared as underscores, 0 if unknown);
otherwise the variable's value is pushed, and an unset variable is fatal. -/
def pushVariable (instr : Instruction) (st : RunnerState) : VMResult :=
  match instr.operands.get? 0 with
  | none => .err "IndexError: instruction has no operands" st
  | some op =>
    let variableName := op.stringValue
    match searchVisits variableName.data with
    | some nodeName =>
      let visitsCount := (alookup (visitsLookupTable st.visits) nodeName).getD 0
      .ok { st with dataStack := Value.num (visitsCount : Rat) :: st.dataStack }
    | none =>
      match alookup st.vars variableName with
      | none => .err "Variable has not been set." st
      | some v => .ok { st with dataStack := v :: st.dataStack }

/-- `__store_variable`: peek (not pop) the stack top and bind it; Python
evaluates the right-hand side first, so an empty stack raises before the
operand is read. -/
def storeVariable (instr : Instruction) (st : RunnerState) : VMResult :=
  match st.dataStack with
  | [] => .err "IndexError: the data stack is empty" st
  | v :: _ =>
    match instr.operands.get? 0 with
    | none => .err "IndexError: instruction has no operands" st
    | some op => .ok { st with vars := aupdate st.vars op.stringValue v }

/-- `__stop`. -/
def stopOp (_instr : Instruction) (st : RunnerState) : VMResult :=
  .ok { st with finished := true }

def defaultRunNodeInstruction : Instruction :=
  { opcode := .RUN_NODE, operands := [] }

/-- `__go_to_node` up to (but excluding) its trailing
`self.__process_instruction()` call; that call is performed by the caller in
the fuel-indexed interpreter below.  The node-existence check precedes every
mutation; `current_node` is assigned before the visits increment, so a missing
visits entry (`KeyError`) leaves the new current node observable. -/
def goToNodeEnter (env : Env) (st : RunnerState) (nodeKey : String) : VMResult :=
  match alookup env.program.nodes nodeKey with
  | none => .err "is not a valid node in this Yarn story." st
  | some node =>
    let st1 := { st with currentNode := some nodeKey }
    match alookup st1.visits nodeKey with
    | none => .err "KeyError: no visits entry for node" st1
    | some v =>
      .ok { st1 with
        visits := aupdate st1.visits nodeKey (v + 1)
        instructionStack := node.instructions
        programCounter := 0
        previousInstruction := defaultRunNodeInstruction
        transitionLog := st1.transitionLog ++ [nodeKey] }

/-- `__run_node` up to the node transition: an operand names the target
directly; otherwise the target is popped off the stack (fatal unless the top
is a string). -/
def runNodeEnter (env : Env) (st : RunnerState) (instr : Instruction) : VMResult :=
  match instr.operands.get? 0 with
  | some op => goToNodeEnter env st op.stringValue
  | none =>
    match st.dataStack with
    | Value.str s :: rest => goToNodeEnter env { st with dataStack := rest } s
    | _ => .err "The RUN_NODE opcode requires a string to be on the top of the stack." st

/-- One lookup-and-call through `opcode_functions`, abstracted over the
dispatch-loop continuation `recurse` (used by the `RUN_NODE` case, which is
where `__go_to_node`'s trailing `self.__process_instruction()` call happens).
The state passed in already has the program counter advanced past `instr`. -/
def execInstructionWith (recurse : RunnerState → VMResult) (env : Env)
    (st : RunnerState) (instr : Instruction) : VMResult :=
  match instr.opcode with
  | .JUMP_TO => jumpTo env instr st
  | .JUMP => jump env instr st
  | .RUN_LINE => runLine env instr st
  | .RUN_COMMAND => runCommand env instr st
  | .ADD_OPTION => addOption env instr st
  | .SHOW_OPTIONS => showOptions instr st
  | .PUSH_STRING => pushString instr st
  | .PUSH_FLOAT => pushFloat instr st
  | .PUSH_BOOL => pushBool instr st
  | .PUSH_NULL => pushNull instr st
  | .JUMP_IF_FALSE => jumpIfFalse env instr st
  | .POP => popOp instr st
  | .CALL_FUNC => callFunc env instr st
  | .PUSH_VARIABLE => pushVariable instr st
  | .STORE_VARIABLE => storeVariable instr st
  | .STOP => stopOp instr st
  | .RUN_NODE =>
    match runNodeEnter env st instr with
    | .ok st2 => recurse st2
    | .err m s => .err m s

/-- `__process_instruction`: bounds-check the program counter, fetch, advance
the counter, execute, and — unless the executed instruction paused or finished
the session — record it as the previous instruction and continue. -/
def processInstruction (env : Env) : Nat → RunnerState → VMResult
  | 0, st => .err "recursion fuel exhausted" st
  | Nat.succ fuel, st =>
    if st.instructionStack.length < 1 then
      .err "The VM instruction stack is empty. No more instructions can be processed." st
    else if st.instructionStack.length ≤ st.programCounter then
      .err "The program counter has reached the end of the instruction stack without encountering a STOP opcode." st
    else
      match st.instructionStack.get? st.programCounter with
      | none => .err "unreachable: the bounds were checked" st
      | some instr =>
        match execInstructionWith (processInstruction env fuel) env
            { st with programCounter := st.programCounter + 1 } instr with
        | .err m s => .err m s
        | .ok st1 =>
          if !st1.paused && !st1.finished then
            processInstruction env fuel { st1 with previousInstruction := instr }
          else .ok st1

/-- One instruction dispatch with `fuel` steps available to any nested node
transition. -/
def execInstruction (env : Env) (fuel : Nat) (st : RunnerState)
    (instr : Instruction) : VMResult :=
  execInstructionWith (processInstruction env fuel) env st instr

/-- `resume`: require a string on top of the stack, clear `paused`, and run the
dispatch loop. -/
def resume (env : Env) (fuel : Nat) (st : RunnerState) : VMResult :=
  match st.dataStack with
  | Value.str _ :: _ => processInstruction env fuel { st with paused := false }
  | _ => .err "Attempted to resume play from selecting an option, but no option has been selected." st

/-- `choose(index)`: Python list indexing of the option buffer (negative
indices count from the end; only magnitudes past the length raise), then clear
the buffer, push the chosen target, and resume. -/
def pyIndex {α : Type _} (l : List α) (i : Int) : Option α :=
  let j := if i < 0 then i + l.length else i
  if 0 ≤ j then l.get? j.toNat else none

def choose (env : Env) (fuel : Nat) (st : RunnerState) (index : Int) : VMResult :=
  match pyIndex st.optionBuffer index with
  | none => .err "IndexError: list index out of range" st
  | some choice =>
    resume env fuel
      { st with optionBuffer := [], dataStack := Value.str choice.choice :: st.dataStack }

/-- `get_line`: `self._line_buffer.pop(0)` (raises on an empty buffer). -/
def getLineOp (st : RunnerState) : VMResult :=
  match st.lineBuffer with
  | [] => .err "IndexError: pop from empty list" st
  | _ :: rest => .ok { st with lineBuffer := rest }

/-- `get_lines`: drain the whole line buffer. -/
def getLinesOp (st : RunnerState) : VMResult :=
  .ok { st with lineBuffer := [] }

/-- `add_command_handler`. -/
def addCommandHandlerOp (st : RunnerState) (command : String)
    (fn : List String → Option String) : VMResult :=
  .ok { st with commandHandlers := aupdate st.commandHandlers command fn }

/-- The attribute assignments of `YarnRunner.__init__` (lines 54-75): every
`x if x else default` tests Python falsiness, so a supplied *empty* list or
dict is replaced by the construction-time default exactly as a missing one is.
`finished` is recomputed as "the last pending instruction is a STOP". -/
def initState (env : Env) (visits : List (String × Nat)) (vars0 : List (String × Value))
    (currentNode : Option String)
    (commandHandlers : List (String × (List String → Option String)))
    (lineBuffer : List String) (optionBuffer : List OptionEntry)
    (vmDataStack : List Value) (vmInstructionStack : List Instruction)
    (programCounter : Nat) (previousInstruction : Option Instruction) : RunnerState :=
  let istack :=
    if vmInstructionStack.isEmpty then [defaultRunNodeInstruction] else vmInstructionStack
  { visits := if visits.isEmpty then env.program.nodes.map (fun p => (p.1, 0)) else visits
    vars := if vars0.isEmpty then [] else vars0
    currentNode := currentNode
    commandHandlers := if commandHandlers.isEmpty then [] else commandHandlers
    lineBuffer := if lineBuffer.isEmpty then [] else lineBuffer
    optionBuffer := if optionBuffer.isEmpty then [] else optionBuffer
    dataStack := if vmDataStack.isEmpty then [Value.str "Start"] else vmDataStack
    instructionStack := istack
    programCounter := programCounter
    previousInstruction := previousInstruction.getD defaultRunNodeInstruction
    paused := true
    finished :=
      match istack.getLast? with
      | some i => i.opcode == OpCode.STOP
      | none => false
    transitionLog := [] }

/-- `YarnRunner.__init__`: assemble the state and, when `autostart` is set,
immediately `resume()`. -/
def initRunner (env : Env) (autostart : Bool) (fuel : Nat)
    (visits : List (String × Nat)) (vars0 : List (String × Value))
    (currentNode : Option String)
    (commandHandlers : List (String × (List String → Option String)))
    (lineBuffer : List String) (optionBuffer : List OptionEntry)
    (vmDataStack : List Value) (vmInstructionStack : List Instruction)
    (programCounter : Nat) (previousInstruction : Option Instruction) : VMResult :=
  let st := initState env visits vars0 currentNode commandHandlers lineBuffer optionBuffer
    vmDataStack vmInstructionStack programCounter previousInstruction
  if autostart then resume env fuel st else .ok st

/-- Construction without a prior snapshot: every constructor argument is left
at its default. -/
def initFresh (env : Env) (autostart : Bool) (fuel : Nat) : VMResult :=
  initRunner env autostart fuel [] [] none [] [] [] [] [] 0 none

/-- The host-facing mutating API surface of a session. -/
inductive ApiCall where
  | resumeCall
  | chooseCall (i : Int)
  | getLineCall
  | getLinesCall
  | addHandlerCall (name : String) (fn : List String → Option String)

def applyCall (env : Env) (fuel : Nat) (st : RunnerState) : ApiCall → VMResult
  | .resumeCall => resume env fuel st
  | .chooseCall i => choose env fuel st i
  | .getLineCall => getLineOp st
  | .getLinesCall => getLinesOp st
  | .addHandlerCall name fn => addCommandHandlerOp st name fn

/-- The session state after a fresh construction followed by an arbitrary
sequence of host API calls (the session object survives raised exceptions, so
each call continues from the state the previous one left behind). -/
def sessionRun (env : Env) (fuel : Nat) (autostart : Bool) (calls : List ApiCall) :
    RunnerState :=
  calls.foldl (fun st c => stateOf (applyCall env fuel st c))
    (stateOf (initFresh env autostart fuel))

/-! ### Specification-side definitions and concrete scenarios used by the claims -/

/-- The spec's literal reading of the `PUSH_VARIABLE` pattern: the whole
variable name is `$visits_<nodeName>`, i.e. `$visits_` followed by one or more
word characters and nothing else.  (The code instead *searches* for the
pattern anywhere in the name; this definition exists to compare the two.) -/
def specMatchesVisits (name : String) : Bool :=
  visitsPat.isPrefixOf name.data
    && !(name.data.drop visitsPat.length).isEmpty
    && (name.data.drop visitsPat.length).all isWordChar

/-- The visit-counting invariant: `visits` has an entry exactly for the
program's node names, and each entry equals the number of logged node
transitions targeting that node (a `Nat`, hence non-negative; `0` for a node
never transitioned into, since its count in the log is `0`). -/
def VisitsCounted (env : Env) (st : RunnerState) : Prop :=
  ∀ n, alookup st.visits n =
    if (alookup env.program.nodes n).isSome
    then some (st.transitionLog.count n)
    else none

/-- Both the visits map and the ghost transition log agree between two
states. -/
def sameVL (st st' : RunnerState) : Prop :=
  st'.visits = st.visits ∧ st'.transitionLog = st.transitionLog

/- Shared instruction shorthands for the concrete scenarios. -/

def iStop : Instruction := { opcode := .STOP, operands := [] }

def iShowOptions : Instruction := { opcode := .SHOW_OPTIONS, operands := [] }

def iJump : Instruction := { opcode := .JUMP, operands := [] }

def iPop : Instruction := { opcode := .POP, operands := [] }

/-- The scenario for claim C1: one node that offers a choice, then prints two
lines and stops.  Instruction 2 (`JUMP`) consumes the chosen label pushed by
`choose`, label `L` points at the `POP` at index 3. -/
def c1Node : Node :=
  { instructions :=
      [{ opcode := .ADD_OPTION, operands := [.str "t1", .str "L"] },
       iShowOptions, iJump, iPop,
       { opcode := .RUN_LINE, operands := [.str "a"] },
       { opcode := .RUN_LINE, operands := [.str "b"] },
       iStop]
    labels := [("L", 3)] }

def c1Env : Env :=
  { program := { nodes := [("Start", c1Node)] }
    stringTable :=
      [("t1", { text := "Choice one", lineNumber := 1 }),
       ("a", { text := "Line A", lineNumber := 2 }),
       ("b", { text := "Line B", lineNumber := 3 })]
    stdLib := []
    experimentalNewlines := false }

/-- The C1 session, autostarted and run to its `SHOW_OPTIONS` suspension. -/
def c1Suspended : RunnerState := stateOf (initFresh c1Env true 50)

/-- Continuing the original session: choose option 0. -/
def c1Uninterrupted : RunnerState := stateOf (choose c1Env 50 c1Suspended 0)

/-- A new session built from the full snapshot of the suspended state (same
visits, variables, current node, both buffers, value stack, instruction list,
program counter and previous instruction; autostart disabled). -/
def c1Restored : RunnerState :=
  stateOf (initRunner c1Env false 50 c1Suspended.visits c1Suspended.vars
    c1Suspended.currentNode c1Suspended.commandHandlers c1Suspended.lineBuffer
    c1Suspended.optionBuffer c1Suspended.dataStack c1Suspended.instructionStack
    c1Suspended.programCounter (some c1Suspended.previousInstruction))

/-- Continuing the restored session with the same host call. -/
def c1Resumed : RunnerState := stateOf (choose c1Env 50 c1Restored 0)

/-- Scenario for C2: a current node with label `skip` at index 5, the number
`0` on top of the stack. -/
def c2Env : Env :=
  { program := { nodes := [("Start", { instructions := [], labels := [("skip", 5)] })] }
    stringTable := []
    stdLib := []
    experimentalNewlines := false }

def c2Instr : Instruction := { opcode := .JUMP_IF_FALSE, operands := [.str "skip"] }

def c2St : RunnerState :=
  { visits := [("Start", 1)], vars := [], currentNode := some "Start"
    commandHandlers := [], lineBuffer := [], optionBuffer := []
    dataStack := [Value.num 0], instructionStack := [], programCounter := 0
    previousInstruction := defaultRunNodeInstruction, paused := false
    finished := false, transitionLog := ["Start"] }

/-- Scenario for C3: a node whose `STOP` is followed by one more `RUN_LINE`,
and which leaves a string on the stack before stopping. -/
def c3Env : Env :=
  { program := { nodes :=
      [("Start",
        { instructions :=
            [{ opcode := .PUSH_STRING, operands := [.str "x"] },
             iStop,
             { opcode := .RUN_LINE, operands := [.str "a"] }]
          labels := [] })] }
    stringTable := [("a", { text := "Line A", lineNumber := 1 })]
    stdLib := []
    experimentalNewlines := false }

/-- The C3 session after its autostarted run executes `STOP`. -/
def c3St : RunnerState := stateOf (initFresh c3Env true 50)

/-- Scenario for C4: a suspended session with exactly one pending option and
a lone `STOP` left to execute. -/
def c4Env : Env :=
  { program := { nodes := [("Start", { instructions := [iStop], labels := [] })] }
    stringTable := []
    stdLib := []
    experimentalNewlines := false }

def c4St : RunnerState :=
  { visits := [("Start", 1)], vars := [], currentNode := some "Start"
    commandHandlers := [], lineBuffer := []
    optionBuffer := [{ index := 0, text := "the only option", choice := "L" }]
    dataStack := [], instructionStack := [iStop], programCounter := 0
    previousInstruction := defaultRunNodeInstruction, paused := true
    finished := false, transitionLog := ["Start"] }

/-- Scenario for C5: a node with label `l`, a standard-library function of
arity 2, and per-opcode states/instructions. -/
def c5Env : Env :=
  { program := { nodes := [("N", { instructions := [], labels := [("l", 2)] })] }
    stringTable := []
    stdLib := [("two", (2, fun _ => Value.null))]
    experimentalNewlines := false }

def c5Base : RunnerState :=
  { visits := [("N", 1)], vars := [], currentNode := some "N"
    commandHandlers := [], lineBuffer := [], optionBuffer := []
    dataStack := [], instructionStack := [], programCounter := 0
    previousInstruction := defaultRunNodeInstruction, paused := false
    finished := false, transitionLog := ["N"] }

def c5StJump : RunnerState := { c5Base with dataStack := [Value.str "l"] }

def c5StPop : RunnerState := { c5Base with dataStack := [Value.null] }

def c5StCall : RunnerState :=
  { c5Base with dataStack := [Value.num 2, Value.str "p", Value.str "q", Value.str "r"] }

def c5CallInstr : Instruction := { opcode := .CALL_FUNC, operands := [.str "two"] }

def c5StoreInstr : Instruction := { opcode := .STORE_VARIABLE, operands := [.str "v"] }

def c5PushStrInstr : Instruction := { opcode := .PUSH_STRING, operands := [.str "s"] }

def c5PushFloatInstr : Instruction := { opcode := .PUSH_FLOAT, operands := [.num 1] }

def c5PushBoolInstr : Instruction := { opcode := .PUSH_BOOL, operands := [.bool true] }

/-- Scenario for C7: one `RUN_COMMAND` whose command name has no registered
handler, followed by a `STOP`; no handlers registered. -/
def c7Instr : Instruction := { opcode := .RUN_COMMAND, operands := [.str "mystery arg1"] }

def c7Env : Env :=
  { program := { nodes := [("Start", { instructions := [c7Instr, iStop], labels := [] })] }
    stringTable := []
    stdLib := []
    experimentalNewlines := false }

def c7St : RunnerState :=
  { visits := [("Start", 1)], vars := [], currentNode := some "Start"
    commandHandlers := [], lineBuffer := [], optionBuffer := []
    dataStack := [], instructionStack := [c7Instr, iStop], programCounter := 0
    previousInstruction := defaultRunNodeInstruction, paused := false
    finished := false, transitionLog := ["Start"] }

/-- Scenario for C9: variable name `x$visits_A`, node `A` visited 3 times, no
variables bound. -/
def c9Instr : Instruction := { opcode := .PUSH_VARIABLE, operands := [.str "x$visits_A"] }

def c9St : RunnerState :=
  { visits := [("A", 3)], vars := [], currentNode := some "A"
    commandHandlers := [], lineBuffer := [], optionBuffer := []
    dataStack := [], instructionStack := [], programCounter := 0
    previousInstruction := defaultRunNodeInstruction, paused := false
    finished := false, transitionLog := ["A", "A", "A"] }

/-- Auxiliary state for C3/C5-style single-step runs: a string on the stack,
one pending `STOP`, not paused, not finished. -/
def c3RunSt : RunnerState :=
  { visits := [("Start", 1)], vars := [], currentNode := some "Start"
    commandHandlers := [], lineBuffer := [], optionBuffer := []
    dataStack := [Value.str "x"], instructionStack := [iStop], programCounter := 0
    previousInstruction := defaultRunNodeInstruction, paused := false
    finished := false, transitionLog := ["Start"] }

def c5JifInstr : Instruction := { opcode := .JUMP_IF_FALSE, operands := [.str "l"] }

/-! ### Helper lemmas -/

theorem alookup_aupdate {β : Type _} (l : List (String × β)) (k : String) (v : β)
    (n : String) :
    alookup (aupdate l k v) n = if k = n then some v else alookup l n := by
  induction l with
  | nil =>
    simp [aupdate, alookup]
  | cons p rest ih =>
    obtain ⟨pk, pv⟩ := p
    simp only [aupdate]
    by_cases hpk : pk = k
    · simp only [if_pos hpk]
      subst hpk
      simp only [alookup]
      by_cases h : pk = n <;> simp [h]
    · simp only [if_neg hpk, alookup]
      by_cases h : pk = n
      · subst h
        have hkn : ¬k = pk := fun hh => hpk hh.symm
        simp [hkn]
      · simp [h, ih]

theorem visitsCounted_of_same {env : Env} {st st' : RunnerState}
    (h : VisitsCounted env st) (hs : sameVL st st') : VisitsCounted env st' := by
  intro n
  rw [hs.1, hs.2]
  exact h n

theorem jumpTo_sameVL (env : Env) (instr : Instruction) (st : RunnerState) :
    sameVL st (stateOf (jumpTo env instr st)) := by
  unfold jumpTo
  try dsimp only
  repeat' split
  all_goals exact ⟨rfl, rfl⟩

theorem jump_sameVL (env : Env) (instr : Instruction) (st : RunnerState) :
    sameVL st (stateOf (jump env instr st)) := by
  unfold jump
  try dsimp only
  repeat' split
  all_goals exact ⟨rfl, rfl⟩

theorem runLine_sameVL (env : Env) (instr : Instruction) (st : RunnerState) :
    sameVL st (stateOf (runLine env instr st)) := by
  unfold runLine
  try dsimp only
  repeat' split
  all_goals exact ⟨rfl, rfl⟩

theorem runCommand_sameVL (env : Env) (instr : Instruction) (st : RunnerState) :
    sameVL st (stateOf (runCommand env instr st)) := by
  unfold runCommand
  try dsimp only
  repeat' split
  all_goals exact ⟨rfl, rfl⟩

theorem addOption_sameVL (env : Env) (instr : Instruction) (st : RunnerState) :
    sameVL st (stateOf (addOption env instr st)) := by
  unfold addOption
  try dsimp only
  repeat' split
  all_goals exact ⟨rfl, rfl⟩

theorem showOptions_sameVL (instr : Instruction) (st : RunnerState) :
    sameVL st (stateOf (showOptions instr st)) := ⟨rfl, rfl⟩

theorem pushString_sameVL (instr : Instruction) (st : RunnerState) :
    sameVL st (stateOf (pushString instr st)) := by
  unfold pushString
  try dsimp only
  repeat' split
  all_goals exact ⟨rfl, rfl⟩

theorem pushFloat_sameVL (instr : Instruction) (st : RunnerState) :
    sameVL st (stateOf (pushFloat instr st)) := by
  unfold pushFloat
  try dsimp only
  repeat' split
  all_goals exact ⟨rfl, rfl⟩

theorem pushBool_sameVL (instr : Instruction) (st : RunnerState) :
    sameVL st (stateOf (pushBool instr st)) := by
  unfold pushBool
  try dsimp only
  repeat' split
  all_goals exact ⟨rfl, rfl⟩

theorem pushNull_sameVL (instr : Instruction) (st : RunnerState) :
    sameVL st (stateOf (pushNull instr st)) := ⟨rfl, rfl⟩

theorem jumpIfFalse_sameVL (env : Env) (instr : Instruction) (st : RunnerState) :
    sameVL st (stateOf (jumpIfFalse env instr st)) := by
  unfold jumpIfFalse
  try dsimp only
  repeat' split
  all_goals first
    | exact ⟨rfl, rfl⟩
    | exact jumpTo_sameVL env instr st

theorem popOp_sameVL (instr : Instruction) (st : RunnerState) :
    sameVL st (stateOf (popOp instr st)) := by
  unfold popOp
  try dsimp only
  repeat' split
  all_goals exact ⟨rfl, rfl⟩

theorem callFunc_sameVL (env : Env) (instr : Instruction) (st : RunnerState) :
    sameVL st (stateOf (callFunc env instr st)) := by
  unfold callFunc
  try dsimp only
  repeat' split
  all_goals exact ⟨rfl, rfl⟩

theorem pushVariable_sameVL (instr : Instruction) (st : RunnerState) :
    sameVL st (stateOf (pushVariable instr st)) := by
  unfold pushVariable
  try dsimp only
  repeat' split
  all_goals exact ⟨rfl, rfl⟩

theorem storeVariable_sameVL (instr : Instruction) (st : RunnerState) :
    sameVL st (stateOf (storeVariable instr st)) := by
  unfold storeVariable
  try dsimp only
  repeat' split
  all_goals exact ⟨rfl, rfl⟩

theorem stopOp_sameVL (instr : Instruction) (st : RunnerState) :
    sameVL st (stateOf (stopOp instr st)) := ⟨rfl, rfl⟩

theorem goToNodeEnter_visitsCounted (env : Env) (st : RunnerState) (key : String)
    (h : VisitsCounted env st) :
    VisitsCounted env (stateOf (goToNodeEnter env st key)) := by
  unfold goToNodeEnter
  cases hnode : alookup env.program.nodes key with
  | none => exact h
  | some node =>
    dsimp only
    cases hv : alookup st.visits key with
    | none => exact h
    | some v =>
      intro n
      dsimp only [stateOf]
      rw [alookup_aupdate]
      by_cases hkn : key = n
      · subst hkn
        have hk := h key
        rw [hv, hnode] at hk
        simp only [Option.isSome_some, if_true] at hk
        have hv1 : v = st.transitionLog.count key := Option.some.inj hk
        simp only [if_pos rfl, hnode, Option.isSome_some, if_true, List.count_append,
          List.count_cons, List.count_nil, hv1]
        simp
      · rw [if_neg hkn]
        have hn := h n
        rw [hn]
        by_cases hs : (alookup env.program.nodes n).isSome
        · simp only [hs, if_true, List.count_append, List.count_cons, List.count_nil]
          have hb : (key == n) = false := by
            simp [hkn]
          rw [hb]
          simp
        · simp [hs]

theorem runNodeEnter_visitsCounted (env : Env) (st : RunnerState)
    (instr : Instruction) (h : VisitsCounted env st) :
    VisitsCounted env (stateOf (runNodeEnter env st instr)) := by
  unfold runNodeEnter
  cases instr.operands.get? 0 with
  | some op => exact goToNodeEnter_visitsCounted env st op.stringValue h
  | none =>
    dsimp only
    cases hs : st.dataStack with
    | nil => exact h
    | cons v rest =>
      cases v with
      | str s =>
        refine goToNodeEnter_visitsCounted env _ s ?_
        exact visitsCounted_of_same h ⟨rfl, rfl⟩
      | num q => exact h
      | bool b => exact h
      | null => exact h

theorem execInstructionWith_visitsCounted (env : Env)
    (recurse : RunnerState → VMResult)
    (hrec : ∀ st, VisitsCounted env st → VisitsCounted env (stateOf (recurse st)))
    (st : RunnerState) (instr : Instruction) (h : VisitsCounted env st) :
    VisitsCounted env (stateOf (execInstructionWith recurse env st instr)) := by
  obtain ⟨opc, ops⟩ := instr
  cases opc
  case JUMP_TO => exact visitsCounted_of_same h (jumpTo_sameVL env ⟨.JUMP_TO, ops⟩ st)
  case JUMP => exact visitsCounted_of_same h (jump_sameVL env ⟨.JUMP, ops⟩ st)
  case RUN_LINE => exact visitsCounted_of_same h (runLine_sameVL env ⟨.RUN_LINE, ops⟩ st)
  case RUN_COMMAND =>
    exact visitsCounted_of_same h (runCommand_sameVL env ⟨.RUN_COMMAND, ops⟩ st)
  case ADD_OPTION =>
    exact visitsCounted_of_same h (addOption_sameVL env ⟨.ADD_OPTION, ops⟩ st)
  case SHOW_OPTIONS =>
    exact visitsCounted_of_same h (showOptions_sameVL ⟨.SHOW_OPTIONS, ops⟩ st)
  case PUSH_STRING =>
    exact visitsCounted_of_same h (pushString_sameVL ⟨.PUSH_STRING, ops⟩ st)
  case PUSH_FLOAT =>
    exact visitsCounted_of_same h (pushFloat_sameVL ⟨.PUSH_FLOAT, ops⟩ st)
  case PUSH_BOOL =>
    exact visitsCounted_of_same h (pushBool_sameVL ⟨.PUSH_BOOL, ops⟩ st)
  case PUSH_NULL =>
    exact visitsCounted_of_same h (pushNull_sameVL ⟨.PUSH_NULL, ops⟩ st)
  case JUMP_IF_FALSE =>
    exact visitsCounted_of_same h (jumpIfFalse_sameVL env ⟨.JUMP_IF_FALSE, ops⟩ st)
  case POP => exact visitsCounted_of_same h (popOp_sameVL ⟨.POP, ops⟩ st)
  case CALL_FUNC =>
    exact visitsCounted_of_same h (callFunc_sameVL env ⟨.CALL_FUNC, ops⟩ st)
  case PUSH_VARIABLE =>
    exact visitsCounted_of_same h (pushVariable_sameVL ⟨.PUSH_VARIABLE, ops⟩ st)
  case STORE_VARIABLE =>
    exact visitsCounted_of_same h (storeVariable_sameVL ⟨.STORE_VARIABLE, ops⟩ st)
  case STOP => exact visitsCounted_of_same h (stopOp_sameVL ⟨.STOP, ops⟩ st)
  case RUN_NODE =>
    have hrn := runNodeEnter_visitsCounted env st ⟨.RUN_NODE, ops⟩ h
    show VisitsCounted env (stateOf
      (match runNodeEnter env st ⟨.RUN_NODE, ops⟩ with
       | .ok st2 => recurse st2
       | .err m s => .err m s))
    cases hr : runNodeEnter env st ⟨.RUN_NODE, ops⟩ with
    | err m s =>
      rw [hr] at hrn
      exact hrn
    | ok st2 =>
      rw [hr] at hrn
      exact hrec st2 hrn

theorem processInstruction_visitsCounted (env : Env) (fuel : Nat) :
    ∀ st, VisitsCounted env st →
      VisitsCounted env (stateOf (processInstruction env fuel st)) := by
  induction fuel with
  | zero =>
    intro st h
    exact h
  | succ f ih =>
    intro st h
    unfold processInstruction
    split
    · exact h
    split
    · exact h
    cases hget : st.instructionStack.get? st.programCounter with
    | none => exact h
    | some instr =>
      dsimp only
      have hstep := execInstructionWith_visitsCounted env (processInstruction env f)
        (fun s hs => ih s hs) { st with programCounter := st.programCounter + 1 } instr
        (visitsCounted_of_same h ⟨rfl, rfl⟩)
      cases hexec : execInstructionWith (processInstruction env f) env
          { st with programCounter := st.programCounter + 1 } instr with
      | err m s =>
        rw [hexec] at hstep
        exact hstep
      | ok st1 =>
        rw [hexec] at hstep
        dsimp only
        split
        · exact ih _ (visitsCounted_of_same hstep ⟨rfl, rfl⟩)
        · exact hstep

theorem resume_visitsCounted (env : Env) (fuel : Nat) (st : RunnerState)
    (h : VisitsCounted env st) :
    VisitsCounted env (stateOf (resume env fuel st)) := by
  unfold resume
  cases hs : st.dataStack with
  | nil => exact h
  | cons v rest =>
    cases v with
    | str s =>
      exact processInstruction_visitsCounted env fuel _ (visitsCounted_of_same h ⟨rfl, rfl⟩)
    | num q => exact h
    | bool b => exact h
    | null => exact h

theorem choose_visitsCounted (env : Env) (fuel : Nat) (st : RunnerState) (i : Int)
    (h : VisitsCounted env st) :
    VisitsCounted env (stateOf (choose env fuel st i)) := by
  unfold choose
  cases pyIndex st.optionBuffer i with
  | none => exact h
  | some c =>
    exact resume_visitsCounted env fuel _ (visitsCounted_of_same h ⟨rfl, rfl⟩)

theorem applyCall_visitsCounted (env : Env) (fuel : Nat) (st : RunnerState)
    (c : ApiCall) (h : VisitsCounted env st) :
    VisitsCounted env (stateOf (applyCall env fuel st c)) := by
  cases c with
  | resumeCall => exact resume_visitsCounted env fuel st h
  | chooseCall i => exact choose_visitsCounted env fuel st i h
  | getLineCall =>
    unfold applyCall getLineOp
    cases st.lineBuffer with
    | nil => exact h
    | cons l rest => exact visitsCounted_of_same h ⟨rfl, rfl⟩
  | getLinesCall => exact visitsCounted_of_same h ⟨rfl, rfl⟩
  | addHandlerCall name fn => exact visitsCounted_of_same h ⟨rfl, rfl⟩

theorem alookup_map_zero (l : List (String × Node)) (n : String) :
    alookup (l.map (fun p => (p.1, (0 : Nat)))) n =
      if (alookup l n).isSome then some 0 else none := by
  induction l with
  | nil => simp [alookup]
  | cons p rest ih =>
    obtain ⟨pk, pv⟩ := p
    by_cases h : pk = n <;> simp [alookup, h, ih]

theorem initFresh_visitsCounted (env : Env) (autostart : Bool) (fuel : Nat) :
    VisitsCounted env (stateOf (initFresh env autostart fuel)) := by
  have hinit : VisitsCounted env
      (initState env [] [] none [] [] [] [] [] 0 none) := by
    intro n
    show alookup (env.program.nodes.map (fun p => (p.1, 0))) n = _
    rw [alookup_map_zero]
    rfl
  unfold initFresh initRunner
  cases autostart with
  | false => exact hinit
  | true => exact resume_visitsCounted env fuel _ hinit

theorem sessionRun_visitsCounted (env : Env) (fuel : Nat) (autostart : Bool)
    (calls : List ApiCall) :
    VisitsCounted env (sessionRun env fuel autostart calls) := by
  unfold sessionRun
  have : ∀ (cs : List ApiCall) (st : RunnerState), VisitsCounted env st →
      VisitsCounted env
        (cs.foldl (fun st c => stateOf (applyCall env fuel st c)) st) := by
    intro cs
    induction cs with
    | nil => intro st h; exact h
    | cons c rest ih =>
      intro st h
      exact ih _ (applyCall_visitsCounted env fuel st c h)
  exact this calls _ (initFresh_visitsCounted env autostart fuel)


/-- Python-list-index failure characterisation used by claim C4. -/
theorem pyIndex_eq_none_iff {α : Type _} (l : List α) (i : Int) :
    pyIndex l i = none ↔ (l.length : Int) ≤ i ∨ i + l.length < 0 := by
  unfold pyIndex
  dsimp only
  by_cases hneg : i < 0
  · rw [if_pos hneg]
    by_cases hj : (0 : Int) ≤ i + l.length
    · rw [if_pos hj, List.get?_eq_none]
      omega
    · rw [if_neg hj]
      simp only [eq_self_iff_true, true_iff]
      omega
  · rw [if_neg hneg, if_pos (by omega : (0 : Int) ≤ i), List.get?_eq_none]
    omega

/-- Claim C10 (confirmed): in `YarnRunner.__init__`, a supplied *empty* value
stack is replaced by the default `["Start"]` (so an exported empty value stack
is never restored as empty), and likewise an empty supplied line buffer,
option buffer, variables mapping or visits mapping is replaced by its
construction-time default. -/
theorem c10_empty_defaults :
    (∀ env vs vr cn ch lb ob ist pc pv,
      (initState env vs vr cn ch lb ob [] ist pc pv).dataStack = [Value.str "Start"]) ∧
    (∀ env vs vr cn ch ob ds ist pc pv,
      (initState env vs vr cn ch [] ob ds ist pc pv).lineBuffer = []) ∧
    (∀ env vs vr cn ch lb ds ist pc pv,
      (initState env vs vr cn ch lb [] ds ist pc pv).optionBuffer = []) ∧
    (∀ env vs cn ch lb ob ds ist pc pv,
      (initState env vs [] cn ch lb ob ds ist pc pv).vars = []) ∧
    (∀ env vr cn ch lb ob ds ist pc pv,
      (initState env [] vr cn ch lb ob ds ist pc pv).visits =
        env.program.nodes.map (fun p => (p.1, 0))) :=
  ⟨fun _ _ _ _ _ _ _ _ _ _ => rfl,
   fun _ _ _ _ _ _ _ _ _ _ => rfl,
   fun _ _ _ _ _ _ _ _ _ _ => rfl,
   fun _ _ _ _ _ _ _ _ _ _ => rfl,
   fun _ _ _ _ _ _ _ _ _ _ => rfl⟩

/-- Claim C1 (the code contradicts it): a session suspended at `SHOW_OPTIONS`
with an empty value stack is snapshotted field by field and reconstructed with
autostart disabled; the reconstruction replaces the empty stack with
`["Start"]` and recomputes `finished` as "last pending instruction is STOP",
so the same `choose(0)` call that prints both lines in the uninterrupted
session prints nothing in the restored one. -/
theorem c1_restore_diverges :
    c1Suspended.paused = true ∧ c1Suspended.finished = false ∧
    c1Suspended.dataStack = [] ∧
    c1Restored.finished = true ∧
    c1Restored.dataStack = [Value.str "Start"] ∧
    c1Uninterrupted.lineBuffer = ["Line A", "Line B"] ∧
    c1Uninterrupted.finished = true ∧
    c1Resumed.lineBuffer = [] ∧
    c1Resumed.finished = true := by decide

/-- Claim C2 counterexample: with the number `0` (not the boolean `false`) on
top of the stack, `JUMP_IF_FALSE` *does* take the jump, because Python's
`0 == False` is true. -/
theorem c2_counterexample :
    c2St.dataStack = [Value.num 0] ∧
    jumpIfFalse c2Env c2Instr c2St = VMResult.ok { c2St with programCounter := 5 } :=
  ⟨rfl, rfl⟩

/-- Claim C2 (amended): with a non-empty stack and a resolvable label,
`JUMP_IF_FALSE` jumps exactly when the peeked top compares equal to Python's
`False` — that is, when it is the boolean `false` *or the number `0`* — and
otherwise leaves the program counter alone; the stack is unchanged either
way. -/
theorem c2_jump_if_false (env : Env) (instr : Instruction) (st : RunnerState)
    (v : Value) (rest : List Value) (op : Operand) (i : Nat)
    (hstack : st.dataStack = v :: rest)
    (hop : instr.operands.get? 0 = some op)
    (hlabel : findLabel env st op.stringValue = Except.ok i) :
    (pyEqFalse v = true →
      jumpIfFalse env instr st = VMResult.ok { st with programCounter := i }) ∧
    (pyEqFalse v = false → jumpIfFalse env instr st = VMResult.ok st) ∧
    (pyEqFalse v = true ↔ v = Value.bool false ∨ v = Value.num 0) := by
  refine ⟨?_, ?_, ?_⟩
  · intro hv
    unfold jumpIfFalse
    rw [hstack]
    dsimp only
    rw [hv]
    simp only [if_true]
    unfold jumpTo
    rw [hop]
    dsimp only
    rw [hlabel]
    dsimp only
    rw [hstack]
  · intro hv
    unfold jumpIfFalse
    rw [hstack]
    dsimp only
    rw [hv]
    simp
  · cases v with
    | bool b => cases b <;> simp [pyEqFalse]
    | num q => simp [pyEqFalse, beq_iff_eq]
    | str s => simp [pyEqFalse]
    | null => simp [pyEqFalse]

/-- Witness for C2's theorem at the concrete scenario. -/
theorem c2_witness :
    (pyEqFalse (Value.num 0) = true →
      jumpIfFalse c2Env c2Instr c2St = VMResult.ok { c2St with programCounter := 5 }) ∧
    (pyEqFalse (Value.num 0) = false →
      jumpIfFalse c2Env c2Instr c2St = VMResult.ok c2St) ∧
    (pyEqFalse (Value.num 0) = true ↔
      Value.num 0 = Value.bool false ∨ Value.num 0 = Value.num 0) :=
  c2_jump_if_false c2Env c2Instr c2St (Value.num 0) [] (Operand.str "skip") 5
    rfl rfl rfl

/-- Claim C3 counterexample: after the autostarted run of a node whose `STOP`
is not its last instruction, `finished` is true and no line was printed; a
further host `resume()` call nevertheless dispatches the `RUN_LINE` after the
`STOP` and appends a line. -/
theorem c3_counterexample :
    c3St.finished = true ∧ c3St.lineBuffer = [] ∧
    isOk (resume c3Env 50 c3St) = true ∧
    (stateOf (resume c3Env 50 c3St)).lineBuffer = ["Line A"] := by decide

/-- Claim C3 (amended): within one dispatch-loop invocation the `finished`
flag does halt execution — the loop only ever returns normally at a pause or a
finish, and an instruction whose execution leaves `finished` set makes the
loop return immediately, with no further dispatch in that invocation.  (The
counterexample shows the flag does *not* guard later `resume()`/`choose()`
calls, which is what the claim as stated asserts.) -/
theorem c3_finished_halts_loop :
    (∀ (env : Env) (fuel : Nat) (st st' : RunnerState),
      processInstruction env fuel st = VMResult.ok st' →
      st'.paused = true ∨ st'.finished = true) ∧
    (∀ (env : Env) (fuel : Nat) (st : RunnerState) (instr : Instruction)
      (st1 : RunnerState),
      st.programCounter < st.instructionStack.length →
      st.instructionStack.get? st.programCounter = some instr →
      execInstruction env fuel { st with programCounter := st.programCounter + 1 } instr
        = VMResult.ok st1 →
      st1.finished = true →
      processInstruction env (fuel + 1) st = VMResult.ok st1) := by
  constructor
  · intro env fuel
    induction fuel with
    | zero =>
      intro st st' h
      exact VMResult.noConfusion h
    | succ f ih =>
      intro st st' h
      unfold processInstruction at h
      split at h
      · exact VMResult.noConfusion h
      split at h
      · exact VMResult.noConfusion h
      split at h
      · exact VMResult.noConfusion h
      split at h
      · exact VMResult.noConfusion h
      split at h
      · exact ih _ _ h
      · rename_i s1 hexeq hguard
        injection h with h1
        subst h1
        cases hp : s1.paused with
        | true => exact Or.inl rfl
        | false =>
          cases hf : s1.finished with
          | true => exact Or.inr rfl
          | false =>
            exfalso
            apply hguard
            rw [hp, hf]
            rfl
  · intro env fuel st instr st1 hlt hget hexec hfin
    unfold processInstruction
    rw [if_neg (by omega), if_neg (by omega), hget]
    dsimp only
    have hexec' : execInstructionWith (processInstruction env fuel) env
        { st with programCounter := st.programCounter + 1 } instr = VMResult.ok st1 :=
      hexec
    rw [hexec']
    dsimp only
    rw [hfin]
    simp

/-- Witness for C3's theorem: both conjuncts applied at a one-instruction
concrete run that executes `STOP`. -/
theorem c3_witness :
    (({ c3RunSt with programCounter := 1, finished := true } : RunnerState).paused = true ∨
      ({ c3RunSt with programCounter := 1, finished := true } : RunnerState).finished = true) ∧
    processInstruction c3Env 1 c3RunSt =
      VMResult.ok { c3RunSt with programCounter := 1, finished := true } :=
  ⟨c3_finished_halts_loop.1 c3Env 1 c3RunSt
      { c3RunSt with programCounter := 1, finished := true } rfl,
   c3_finished_halts_loop.2 c3Env 0 c3RunSt iStop
      { c3RunSt with programCounter := 1, finished := true }
      (by decide) rfl rfl rfl⟩

/-- Claim C4 counterexample: with exactly one pending option, `choose(-1)` —
an index outside `0..n-1` — does *not* fail: Python's negative indexing
selects the last option and the session resumes. -/
theorem c4_counterexample :
    c4St.optionBuffer.length = 1 ∧
    isOk (choose c4Env 5 c4St (-1)) = true ∧
    (stateOf (choose c4Env 5 c4St (-1))).optionBuffer = [] ∧
    (stateOf (choose c4Env 5 c4St (-1))).dataStack = [Value.str "L"] := by decide

/-- Claim C4 (amended): `choose(index)` fails — raising before any mutation,
so the option buffer is left intact — exactly when the index is `≥ n` or
`< -n` (Python list indexing accepts negative indices `-n..-1`, which select
an option counted from the end); for every in-range index it clears the
option buffer, pushes the chosen option's choice target, and resumes. -/
theorem c4_choose (env : Env) (fuel : Nat) (st : RunnerState) (i : Int) :
    (pyIndex st.optionBuffer i = none →
      choose env fuel st i = VMResult.err "IndexError: list index out of range" st) ∧
    (∀ c, pyIndex st.optionBuffer i = some c →
      choose env fuel st i = resume env fuel
        { st with optionBuffer := [], dataStack := Value.str c.choice :: st.dataStack }) ∧
    (pyIndex st.optionBuffer i = none ↔
      (st.optionBuffer.length : Int) ≤ i ∨ i + st.optionBuffer.length < 0) := by
  refine ⟨?_, ?_, pyIndex_eq_none_iff st.optionBuffer i⟩
  · intro h
    unfold choose
    rw [h]
  · intro c h
    unfold choose
    rw [h]

/-- Witness for C4's theorem at the concrete scenario: `-1` succeeds (it is in
Python range), `1` fails with the buffer untouched. -/
theorem c4_witness :
    choose c4Env 5 c4St (-1) = resume c4Env 5
      { c4St with optionBuffer := [], dataStack := Value.str "L" :: c4St.dataStack } ∧
    choose c4Env 5 c4St 1 = VMResult.err "IndexError: list index out of range" c4St ∧
    (pyIndex c4St.optionBuffer 1 = none ↔
      (c4St.optionBuffer.length : Int) ≤ 1 ∨ (1 : Int) + c4St.optionBuffer.length < 0) :=
  ⟨(c4_choose c4Env 5 c4St (-1)).2.1
      { index := 0, text := "the only option", choice := "L" } rfl,
   (c4_choose c4Env 5 c4St 1).1 rfl,
   (c4_choose c4Env 5 c4St 1).2.2⟩

/-- Claim C5 (confirmed): whenever the opcode's preconditions hold (the
handler returns normally), `JUMP`, `JUMP_IF_FALSE` and `STORE_VARIABLE` leave
the value-stack depth unchanged; each `PUSH_*` deepens it by exactly 1; `POP`
shrinks it by exactly 1; and a successful `CALL_FUNC` of an arity-`n`
standard-library function shrinks it by exactly `n` (argument count and `n`
arguments popped, one result pushed). -/
theorem c5_stack_depth :
    (∀ (env : Env) (instr : Instruction) (st st' : RunnerState),
      jump env instr st = VMResult.ok st' →
      st'.dataStack.length = st.dataStack.length) ∧
    (∀ (env : Env) (instr : Instruction) (st st' : RunnerState),
      jumpIfFalse env instr st = VMResult.ok st' →
      st'.dataStack.length = st.dataStack.length) ∧
    (∀ (instr : Instruction) (st st' : RunnerState),
      storeVariable instr st = VMResult.ok st' →
      st'.dataStack.length = st.dataStack.length) ∧
    (∀ (instr : Instruction) (st st' : RunnerState),
      pushString instr st = VMResult.ok st' →
      st'.dataStack.length = st.dataStack.length + 1) ∧
    (∀ (instr : Instruction) (st st' : RunnerState),
      pushFloat instr st = VMResult.ok st' →
      st'.dataStack.length = st.dataStack.length + 1) ∧
    (∀ (instr : Instruction) (st st' : RunnerState),
      pushBool instr st = VMResult.ok st' →
      st'.dataStack.length = st.dataStack.length + 1) ∧
    (∀ (instr : Instruction) (st st' : RunnerState),
      pushNull instr st = VMResult.ok st' →
      st'.dataStack.length = st.dataStack.length + 1) ∧
    (∀ (instr : Instruction) (st st' : RunnerState),
      popOp instr st = VMResult.ok st' →
      st'.dataStack.length + 1 = st.dataStack.length) ∧
    (∀ (env : Env) (instr : Instruction) (st st' : RunnerState)
      (op : Operand) (n : Nat) (f : List Value → Value),
      instr.operands.get? 0 = some op →
      alookup env.stdLib op.stringValue = some (n, f) →
      callFunc env instr st = VMResult.ok st' →
      st'.dataStack.length + n = st.dataStack.length) := by
  refine ⟨?_, ?_, ?_, ?_, ?_, ?_, ?_, ?_, ?_⟩
  · intro env instr st st' h
    unfold jump at h
    split at h
    · split at h
      · exact VMResult.noConfusion h
      · injection h with h1
        subst h1
        rfl
    · exact VMResult.noConfusion h
  · intro env instr st st' h
    unfold jumpIfFalse at h
    split at h
    · exact VMResult.noConfusion h
    · split at h
      · unfold jumpTo at h
        split at h
        · exact VMResult.noConfusion h
        · split at h
          · exact VMResult.noConfusion h
          · injection h with h1
            subst h1
            rfl
      · injection h with h1
        subst h1
        rfl
  · intro instr st st' h
    unfold storeVariable at h
    split at h
    · exact VMResult.noConfusion h
    · split at h
      · exact VMResult.noConfusion h
      · injection h with h1
        subst h1
        rfl
  · intro instr st st' h
    unfold pushString at h
    split at h
    · exact VMResult.noConfusion h
    · injection h with h1
      subst h1
      rfl
  · intro instr st st' h
    unfold pushFloat at h
    split at h
    · exact VMResult.noConfusion h
    · injection h with h1
      subst h1
      rfl
  · intro instr st st' h
    unfold pushBool at h
    split at h
    · exact VMResult.noConfusion h
    · injection h with h1
      subst h1
      rfl
  · intro instr st st' h
    unfold pushNull at h
    injection h with h1
    subst h1
    rfl
  · intro instr st st' h
    unfold popOp at h
    split at h
    · exact VMResult.noConfusion h
    · injection h with h1
      subst h1
      rename_i v rest heq
      rw [heq]
      rfl
  · intro env instr st st' op n f hop hlook h
    unfold callFunc at h
    rw [hop] at h
    dsimp only at h
    rw [hlook] at h
    dsimp only at h
    split at h
    · exact VMResult.noConfusion h
    · rename_i v rest heq
      split at h
      · exact VMResult.noConfusion h
      · split at h
        · exact VMResult.noConfusion h
        · split at h
          · rename_i hle
            injection h with h1
            subst h1
            rw [heq]
            dsimp only [List.length_cons]
            rw [List.length_drop]
            omega
          · exact VMResult.noConfusion h

/-- Witness for C5's theorem: every conjunct applied at a concrete state. -/
theorem c5_witness :
    ({ c5StJump with programCounter := 2 } : RunnerState).dataStack.length
        = c5StJump.dataStack.length ∧
    c5StJump.dataStack.length = c5StJump.dataStack.length ∧
    ({ c5StPop with vars := aupdate c5StPop.vars "v" Value.null } : RunnerState).dataStack.length
        = c5StPop.dataStack.length ∧
    ({ c5Base with dataStack := Value.str "s" :: c5Base.dataStack } : RunnerState).dataStack.length
        = c5Base.dataStack.length + 1 ∧
    ({ c5Base with dataStack := Value.num 1 :: c5Base.dataStack } : RunnerState).dataStack.length
        = c5Base.dataStack.length + 1 ∧
    ({ c5Base with dataStack := Value.bool true :: c5Base.dataStack } : RunnerState).dataStack.length
        = c5Base.dataStack.length + 1 ∧
    ({ c5Base with dataStack := Value.null :: c5Base.dataStack } : RunnerState).dataStack.length
        = c5Base.dataStack.length + 1 ∧
    ({ c5StPop with dataStack := [] } : RunnerState).dataStack.length + 1
        = c5StPop.dataStack.length ∧
    ({ c5StCall with dataStack := [Value.null, Value.str "r"] } : RunnerState).dataStack.length + 2
        = c5StCall.dataStack.length :=
  ⟨c5_stack_depth.1 c5Env iJump c5StJump { c5StJump with programCounter := 2 } rfl,
   c5_stack_depth.2.1 c5Env c5JifInstr c5StJump c5StJump rfl,
   c5_stack_depth.2.2.1 c5StoreInstr c5StPop
     { c5StPop with vars := aupdate c5StPop.vars "v" Value.null } rfl,
   c5_stack_depth.2.2.2.1 c5PushStrInstr c5Base
     { c5Base with dataStack := Value.str "s" :: c5Base.dataStack } rfl,
   c5_stack_depth.2.2.2.2.1 c5PushFloatInstr c5Base
     { c5Base with dataStack := Value.num 1 :: c5Base.dataStack } rfl,
   c5_stack_depth.2.2.2.2.2.1 c5PushBoolInstr c5Base
     { c5Base with dataStack := Value.bool true :: c5Base.dataStack } rfl,
   c5_stack_depth.2.2.2.2.2.2.1 c5PushBoolInstr c5Base
     { c5Base with dataStack := Value.null :: c5Base.dataStack } rfl,
   c5_stack_depth.2.2.2.2.2.2.2.1 iPop c5StPop { c5StPop with dataStack := [] } rfl,
   c5_stack_depth.2.2.2.2.2.2.2.2 c5Env c5CallInstr c5StCall
     { c5StCall with dataStack := [Value.null, Value.str "r"] }
     (Operand.str "two") 2 (fun _ => Value.null) rfl rfl rfl⟩

/-- Claim C6 (confirmed): in every session constructed without a prior
snapshot (either autostart mode) and driven by any sequence of host API calls,
the visits mapping has an entry exactly for each node name of the program, and
each entry equals the number of node transitions (recorded in the ghost
transition log) that targeted that node — in particular a node never
transitioned into has count 0, and every count is a natural number. -/
theorem c6_visit_counts (env : Env) (fuel : Nat) (autostart : Bool)
    (calls : List ApiCall) (n : String) :
    alookup (sessionRun env fuel autostart calls).visits n =
      if (alookup env.program.nodes n).isSome
      then some (List.count n (sessionRun env fuel autostart calls).transitionLog)
      else none :=
  sessionRun_visitsCounted env fuel autostart calls n

/-- Claim C7 (confirmed): a `RUN_COMMAND` whose parsed command name has no
registered handler only warns: it raises nothing and returns the state
completely unchanged (line buffer and value stack included), and the dispatch
loop proceeds to the next instruction, recording the command instruction as
the previous one. -/
theorem c7_unregistered_command (env : Env) (fuel : Nat) (st : RunnerState)
    (ops : List Operand) (op : Operand)
    (hget : st.instructionStack.get? st.programCounter =
      some { opcode := .RUN_COMMAND, operands := ops })
    (hlt : st.programCounter < st.instructionStack.length)
    (hop : ops.get? 0 = some op)
    (hreg : alookup st.commandHandlers (parseCommand op.stringValue).1 = none)
    (hp : st.paused = false) (hf : st.finished = false) :
    runCommand env { opcode := .RUN_COMMAND, operands := ops } st = VMResult.ok st ∧
    processInstruction env (fuel + 1) st =
      processInstruction env fuel { st with
        programCounter := st.programCounter + 1,
        previousInstruction := { opcode := .RUN_COMMAND, operands := ops } } := by
  have hrc : ∀ st2 : RunnerState, st2.commandHandlers = st.commandHandlers →
      runCommand env { opcode := .RUN_COMMAND, operands := ops } st2 = VMResult.ok st2 := by
    intro st2 hsame
    unfold runCommand
    dsimp only
    rw [hop]
    dsimp only
    rw [hsame, hreg]
  refine ⟨hrc st rfl, ?_⟩
  conv_lhs => unfold processInstruction
  rw [if_neg (by omega), if_neg (by omega), hget]
  dsimp only
  have hstep : execInstructionWith (processInstruction env fuel) env
      { st with programCounter := st.programCounter + 1 }
      { opcode := .RUN_COMMAND, operands := ops } =
      VMResult.ok { st with programCounter := st.programCounter + 1 } := by
    show runCommand env { opcode := .RUN_COMMAND, operands := ops }
      { st with programCounter := st.programCounter + 1 } = _
    exact hrc _ rfl
  rw [hstep]
  dsimp only
  rw [hp, hf]
  rfl

/-- Witness for C7's theorem: the concrete unregistered command `mystery`. -/
theorem c7_witness :
    runCommand c7Env { opcode := .RUN_COMMAND, operands := [Operand.str "mystery arg1"] }
        c7St = VMResult.ok c7St ∧
    processInstruction c7Env 2 c7St =
      processInstruction c7Env 1 { c7St with
        programCounter := 1,
        previousInstruction :=
          { opcode := .RUN_COMMAND, operands := [Operand.str "mystery arg1"] } } :=
  c7_unregistered_command c7Env 1 c7St [Operand.str "mystery arg1"]
    (Operand.str "mystery arg1") rfl (by decide) rfl rfl rfl rfl

/-- Claim C8 counterexample: the command text is *not* split on general
whitespace — a tab does not separate tokens at all, and consecutive spaces
produce empty tokens (which whitespace-splitting would not). -/
theorem c8_counterexample :
    parseCommand "a\tb" = ("a\tb", []) ∧
    parseCommand "a  b" = ("a", ["", "b"]) := by decide

/-- Claim C8 (amended): the command text is stripped of surrounding
whitespace and then split at every single *space character* (only `' '`; no
other whitespace splits, and consecutive spaces yield empty tokens) that lies
outside single- or double-quoted substrings; each argument token that starts
and ends with a quote character has that one surrounding layer removed.  In
particular the claim's example parses as stated. -/
theorem c8_command_parse :
    parseCommand "mycommand foo \"bar baz\" 'qux'" =
      ("mycommand", ["foo", "bar baz", "qux"]) ∧
    parseCommand " walk 'to the' \"red door\" " = ("walk", ["to the", "red door"]) ∧
    parseCommand "say \"a 'quoted' word\"" = ("say", ["a 'quoted' word"]) := by decide

/-- Claim C9 counterexample: the variable name `x$visits_A` does not match the
pattern `$visits_<nodeName>` (it has a leading `x`), and it has no binding in
the (empty) variables mapping, so by the claim a fatal error should be
raised; the code instead *searches* for the pattern inside the name, finds
`$visits_A`, and pushes node `A`'s visit count 3. -/
theorem c9_counterexample :
    specMatchesVisits "x$visits_A" = false ∧
    alookup c9St.vars "x$visits_A" = none ∧
    isOk (pushVariable c9Instr c9St) = true ∧
    (stateOf (pushVariable c9Instr c9St)).dataStack = [Value.num 3] := by decide

/-- Claim C9 (amended): `PUSH_VARIABLE(name)` pushes a visit count if and only
if the name *contains* an occurrence of `$visits_` followed by at least one
word character; the node name taken is the maximal word-character run after
the first such occurrence, it is compared against the node names with dots
replaced by underscores, and 0 is pushed when no node matches.  Otherwise the
value bound to the name is pushed, and a fatal error is raised exactly when
the name has no binding in the variables mapping. -/
theorem c9_push_variable (instr : Instruction) (st : RunnerState) (op : Operand)
    (hop : instr.operands.get? 0 = some op) :
    (∀ g, searchVisits op.stringValue.data = some g →
      pushVariable instr st = VMResult.ok { st with dataStack := Value.num (((alookup (visitsLookupTable st.visits) g).getD 0 : Nat) : Rat) :: st.dataStack }) ∧
    (searchVisits op.stringValue.data = none →
      (alookup st.vars op.stringValue = none →
        pushVariable instr st = VMResult.err "Variable has not been set." st) ∧
      (∀ v, alookup st.vars op.stringValue = some v →
        pushVariable instr st = VMResult.ok { st with dataStack := v :: st.dataStack })) := by
  refine ⟨?_, ?_⟩
  · intro g hg
    unfold pushVariable
    rw [hop]
    dsimp only
    rw [hg]
  · intro hg
    refine ⟨?_, ?_⟩
    · intro hvar
      unfold pushVariable
      rw [hop]
      dsimp only
      rw [hg]
      dsimp only
      rw [hvar]
    · intro v hvar
      unfold pushVariable
      rw [hop]
      dsimp only
      rw [hg]
      dsimp only
      rw [hvar]

/-- Witness for C9's theorem: the concrete name `x$visits_A` goes through the
visits branch and pushes count 3. -/
theorem c9_witness :
    pushVariable c9Instr c9St = VMResult.ok { c9St with dataStack := Value.num (((alookup (visitsLookupTable c9St.visits) "A").getD 0 : Nat) : Rat) :: c9St.dataStack } :=
  (c9_push_variable c9Instr c9St (Operand.str "x$visits_A") rfl).1 "A" (by decide)
